import Mathlib

/-!
Shallow embedding of the payment / balance-transfer core of the contracts
service: the validator functions (`validateJobClientType`, `validatePayJob`,
`validateDepositBalance`, `validateDates` from `src/validator.js`) and the
route handlers that use them (`POST /jobs/:job_id/pay`,
`GET /admin/best-profession`, `GET /admin/best-clients` from `src/app.js`).

Monetary amounts (JS numbers) are embedded as `Rat`; a thrown HTTP error is
an `Except.error` carrying the status code and message; the database fetch
that a handler performs is a parameter of the handler (the handler operates
on the fetched row aggregate, exactly as the JS code does).
-/

/-- An error thrown by `throwHttpError(statusCode, message)`: a JS `Error`
with a `statusCode` field, rendered by the top-level error responder as
`{message}` with status `err.statusCode || 500`. -/
structure HttpError where
  statusCode : Nat
  message : String
deriving DecidableEq, Repr

/-- Embedding of `throwHttpError` from `src/validator.js`: builds the error
and throws it. -/
def throwHttpError (statusCode : Nat) (message : String) : Except HttpError α :=
  Except.error ⟨statusCode, message⟩

/-- A JavaScript value as it can appear in the `paid` column of a Job row:
`null` when unpaid, `true` once paid; the embedding also carries the other
primitive shapes so that JS truthiness tests are represented faithfully. -/
inductive JsVal where
  | null
  | bool (b : Bool)
  | num (q : Rat)
  | str (s : String)
deriving DecidableEq, Repr

/-- JS truthiness: `null`, `false`, `0` and `""` are falsy, everything else
of these shapes is truthy. -/
def JsVal.truthy : JsVal → Bool
  | .null => false
  | .bool b => b
  | .num q => q != 0
  | .str s => s != ""

/-- A Profile row (`src/model.js` shape as used by the handlers). -/
structure Profile where
  id : Nat
  firstName : String
  lastName : String
  profession : String
  type : String
  balance : Rat
deriving DecidableEq, Repr

/-- The Contract row as fetched by the pay-job lookup, with the `Client` and
`Contractor` profiles eagerly included. -/
structure ContractRecord where
  ClientId : Nat
  ContractorId : Nat
  status : String
  Client : Profile
  Contractor : Profile
deriving DecidableEq, Repr

/-- The Job row as fetched by the pay-job lookup (`Job.findOne` with the
contract and both profiles included). `paymentDate` is embedded as an
optional timestamp. -/
structure JobRecord where
  id : Nat
  price : Rat
  paid : JsVal
  paymentDate : Option Nat
  Contract : ContractRecord
deriving DecidableEq, Repr

/-- Embedding of `validateJobClientType` from `src/validator.js`. -/
def validateJobClientType (profileType : String) : Except HttpError Unit :=
  if profileType ≠ "client" then
    throwHttpError 403 "Only clients can pay for a job"
  else Except.ok ()

/-- Embedding of `validatePayJob` from `src/validator.js`: not-found when
the lookup returned nothing, then the truthiness test `job.paid`, then the
balance test `job.price > job.Contract.Client.balance`. -/
def validatePayJob : Option JobRecord → Except HttpError Unit
  | none => throwHttpError 404 "Job not found"
  | some job =>
    if job.paid.truthy then throwHttpError 400 "Job is already paid"
    else if job.Contract.Client.balance < job.price then
      throwHttpError 400 "Not enough balance to pay for this job"
    else Except.ok ()

/-- The atomic transaction of `POST /jobs/:job_id/pay`: set `paid = true`
and `paymentDate = now`, decrement the client balance by `job.price`,
increment the contractor balance by `job.price`. -/
def applyPayTransaction (job : JobRecord) (now : Nat) : JobRecord :=
  { job with
    paid := JsVal.bool true,
    paymentDate := some now,
    Contract := { job.Contract with
      Client := { job.Contract.Client with
        balance := job.Contract.Client.balance - job.price },
      Contractor := { job.Contract.Contractor with
        balance := job.Contract.Contractor.balance + job.price } } }

/-- The successful response of the pay handler: HTTP status 201 together
with the state the transaction committed (the updated job row aggregate). -/
structure PayJobSuccess where
  status : Nat
  job : JobRecord
deriving DecidableEq, Repr

/-- Embedding of the `POST /jobs/:job_id/pay` handler from `src/app.js`.
The database lookup (`Job.findOne` filtered by job id, the caller being the
contract client, and contract status new or in progress) is a parameter:
`lookup` is its result. The handler checks the caller role, validates the
job, then runs the transaction and answers 201. -/
def payJobHandler (profileType : String) (lookup : Option JobRecord) (now : Nat) :
    Except HttpError PayJobSuccess := do
  validateJobClientType profileType
  validatePayJob lookup
  match lookup with
  | none => throwHttpError 404 "Job not found"
  | some job => Except.ok ⟨201, applyPayTransaction job now⟩

/-- An unpaid Job row as eagerly loaded for the deposit route (only `price`
is read by the validator). -/
structure DepositJobRow where
  price : Rat
deriving DecidableEq, Repr

/-- A Contract row with its unpaid jobs, as eagerly loaded under the
`Client` association for the deposit route. -/
structure DepositContractRow where
  Jobs : List DepositJobRow
deriving DecidableEq, Repr

/-- The Profile row fetched by `POST /balances/deposit/:user_id`: the target
profile with every contract where it is the client, each with its unpaid
jobs. -/
structure DepositUserRow where
  id : Nat
  type : String
  balance : Rat
  Client : List DepositContractRow
deriving DecidableEq, Repr

/-- The inner reduce of `validateDepositBalance`: the sum of the prices of
one contract's (unpaid) jobs. -/
def contractJobsSum (contract : DepositContractRow) : Rat :=
  contract.Jobs.foldl (fun currentSum job => currentSum + job.price) 0

/-- The outer reduce of `validateDepositBalance`: the total price of the
client's unpaid jobs across all of its contracts. -/
def totalJobsToPayAmount (user : DepositUserRow) : Rat :=
  user.Client.foldl (fun sum contract => sum + contractJobsSum contract) 0

/-- The message of the 25% cap error, interpolating the computed total
(`jsNumberToString` renders it the way the JS template literal does for the
integral amounts arising here). -/
def jsNumberToString (q : Rat) : String :=
  if q.den = 1 then toString q.num else toString q.num ++ "/" ++ toString q.den

/-- The cap error message of `validateDepositBalance`, with the computed
total interpolated literally. -/
def depositCapMessage (total : Rat) : String :=
  "Client can't deposit more than 25% his total of jobs to pay (" ++
    jsNumberToString total ++ ")"

/-- Embedding of `validateDepositBalance` from `src/validator.js`. The JS
guard `!depositValue || depositValue <= 0` is: the value is absent
(`undefined`), or zero (falsy), or non-positive — embedded as `none`, or
`some v` with `v ≤ 0`. -/
def validateDepositBalance (user : Option DepositUserRow) (depositValue : Option Rat) :
    Except HttpError Unit :=
  match user with
  | none => throwHttpError 404 "User not found"
  | some u =>
    if u.type ≠ "client" then throwHttpError 400 "User is not a client"
    else match depositValue with
      | none => throwHttpError 400 "Deposit value is invalid (should be > 0)"
      | some v =>
        if v ≤ 0 then throwHttpError 400 "Deposit value is invalid (should be > 0)"
        else if 0.25 * totalJobsToPayAmount u < v then
          throwHttpError 400 (depositCapMessage (totalJobsToPayAmount u))
        else Except.ok ()

/-- The numeric value of a decimal digit character. -/
def digitVal (c : Char) : Nat := c.toNat - 48

/-- Gregorian leap-year rule. -/
def isLeapYear (y : Nat) : Bool := (y % 4 == 0 && y % 100 != 0) || y % 400 == 0

/-- Days in a month of the proleptic Gregorian calendar. -/
def daysInMonth (y m : Nat) : Nat :=
  if m == 2 then (if isLeapYear y then 29 else 28)
  else if m == 4 || m == 6 || m == 9 || m == 11 then 30
  else 31

/-- Modelled from the behaviour of `dayjs(date, "YYYY-MM-DD", true).isValid()`
(the dayjs library with the customParseFormat plugin in strict mode, as
called by `validateDates`): the string must be exactly four digits, a dash,
two digits, a dash, two digits, and the three numbers must form a real
calendar date — strict mode rejects any input that the lenient parser would
normalize (such as day 31 in a 30-day month). -/
def isStrictDate (s : String) : Bool :=
  match s.toList with
  | [y1, y2, y3, y4, c1, m1, m2, c2, d1, d2] =>
    if c1 == '-' && c2 == '-' && ([y1, y2, y3, y4, m1, m2, d1, d2].all Char.isDigit) then
      let y := ((digitVal y1 * 10 + digitVal y2) * 10 + digitVal y3) * 10 + digitVal y4
      let m := digitVal m1 * 10 + digitVal m2
      let d := digitVal d1 * 10 + digitVal d2
      decide (1 ≤ m ∧ m ≤ 12 ∧ 1 ≤ d ∧ d ≤ daysInMonth y m)
    else false
  | _ => false

/-- Embedding of `validateDates` from `src/validator.js`: walk the list and
throw on the first string that is not a strict `YYYY-MM-DD` date, naming it
in the message. -/
def validateDates : List String → Except HttpError Unit
  | [] => Except.ok ()
  | date :: rest =>
    if isStrictDate date then validateDates rest
    else throwHttpError 400 ("Invalid date: " ++ date)

example : validateDates ["2010-01-01", "2020-12-31"] = Except.ok () := rfl
example : validateDates ["2010-01-01", "2020-02-31"] =
    Except.error ⟨400, "Invalid date: 2020-02-31"⟩ := rfl

/-- A Job row as fetched by the two admin aggregation routes (filtered at
fetch time to `paid = true` with `paymentDate` in the queried range); only
`price` is read by the aggregation. The JS guard `job.price || 0` is the
identity on every numeric price (a zero price is replaced by zero), so the
embedding sums `price` directly. -/
structure FetchedJobRow where
  price : Rat
deriving DecidableEq, Repr

/-- A Contract row with the paid-in-range jobs included, as fetched under
the `Contractor` (best-profession) or `Client` (best-clients) association. -/
structure FetchedContractRow where
  Jobs : List FetchedJobRow
deriving DecidableEq, Repr

/-- A contractor Profile row as fetched by `GET /admin/best-profession`. -/
structure ContractorUserRow where
  profession : String
  Contractor : List FetchedContractRow
deriving DecidableEq, Repr

/-- The per-contract reduce of the aggregation handlers: the sum of the
fetched jobs' prices of one contract. -/
def fetchedContractSum (contract : FetchedContractRow) : Rat :=
  contract.Jobs.foldl (fun currentSum job => currentSum + job.price) 0

/-- The amount one contractor's fetched contracts contribute to its
profession: `user.Contractor.reduce(...)` in the best-profession handler. -/
def contractorTotal (user : ContractorUserRow) : Rat :=
  user.Contractor.foldl (fun sum contract => sum + fetchedContractSum contract) 0

/-- One step of building `professionMap`: `professionMap[p] += total`, a JS
object keyed by profession. An absent key is first set to `0` (the falsy
check `!professionMap[p]` also resets an existing `0`, which is a no-op), so
the step is: add to the entry when the key is present, else append it — key
order is first-insertion order, as for JS object string keys. -/
def addToProfessionMap (m : List (String × Rat)) (p : String) (total : Rat) :
    List (String × Rat) :=
  match m with
  | [] => [(p, total)]
  | kv :: rest =>
    if kv.1 == p then (kv.1, kv.2 + total) :: rest
    else kv :: addToProfessionMap rest p total

/-- The `professionMap` object built by the best-profession handler's
`forEach` over the fetched contractor profiles. -/
def professionMap (users : List ContractorUserRow) : List (String × Rat) :=
  users.foldl (fun m user => addToProfessionMap m user.profession (contractorTotal user)) []

/-- Reading `professionMap[k]` for a key known to be present (the fold over
`Object.keys` only reads present keys; the default never fires there). -/
def professionMapGet (m : List (String × Rat)) (k : String) : Rat :=
  ((m.find? (fun kv => kv.1 == k)).map (fun kv => kv.2)).getD 0

/-- Embedding of `Object.keys(professionMap).reduce((a, b) =>
professionMap[a] > professionMap[b] ? a : b)`: `none` when the key list is
empty (JS `reduce` of an empty array with no initial value throws a
`TypeError`), else the fold from the first key. -/
def bestProfessionOf (m : List (String × Rat)) : Option String :=
  match m.map Prod.fst with
  | [] => none
  | k :: ks =>
    some (ks.foldl (fun a b => if professionMapGet m b < professionMapGet m a then a else b) k)

/-- Embedding of the `GET /admin/best-profession` handler from `src/app.js`.
The fetch (contractor profiles with their contracts' paid jobs in range) is
the `users` parameter. When the fetched list is empty the `reduce` over the
empty key list throws a `TypeError`, which the top-level responder turns
into a 500 response (no `statusCode` on the error). -/
def bestProfessionHandler (startDate endDate : String) (users : List ContractorUserRow) :
    Except HttpError String := do
  validateDates [startDate, endDate]
  let m := professionMap users
  match bestProfessionOf m with
  | none => throwHttpError 500 "Reduce of empty array with no initial value"
  | some best =>
    Except.ok (if 0 < professionMapGet m best then best
               else "No professions were paid in this time range")

/-- A client Profile row as fetched by `GET /admin/best-clients`. -/
structure ClientUserRow where
  id : Nat
  firstName : String
  lastName : String
  Client : List FetchedContractRow
deriving DecidableEq, Repr

/-- An entry of the best-clients response: `{ id, fullName, paid }`. -/
structure ClientEntry where
  id : Nat
  fullName : String
  paid : Rat
deriving DecidableEq, Repr

/-- The `users.map(...)` step of the best-clients handler: the client's id,
the display name `` `${user.firstName} ${user.lastName}` ``, and the summed
paid amount over the fetched contracts. -/
def clientEntry (user : ClientUserRow) : ClientEntry :=
  ⟨user.id, user.firstName ++ " " ++ user.lastName,
    user.Client.foldl (fun sum contract => sum + fetchedContractSum contract) 0⟩

/-- The order the comparator `(a, b) => a.paid > b.paid ? -1 : 1` sorts by:
`a` may stand before `b` exactly when `b.paid ≤ a.paid` (descending by
`paid`; the relative order of equal sums is engine-defined in JS and
embedded here as the stable order of `List.mergeSort`). -/
def clientSortLe (a b : ClientEntry) : Bool := decide (b.paid ≤ a.paid)

/-- Embedding of the `GET /admin/best-clients` handler from `src/app.js`:
map the fetched client rows to entries, sort descending by `paid`, and take
the first `limit` entries (`limit` defaults to 2 when absent from the
query). -/
def bestClientsHandler (startDate endDate : String) (users : List ClientUserRow)
    (limit : Option Nat) : Except HttpError (List ClientEntry) := do
  validateDates [startDate, endDate]
  let bestClients := users.map clientEntry
  Except.ok ((bestClients.mergeSort clientSortLe).take (limit.getD 2))

/-- The client profile of the validator test data (Harry, balance 1250). -/
def harryProfile : Profile := ⟨1, "Harry", "Potter", "Wizard", "client", 1250⟩

/-- The contractor profile of the validator test data (Linus, balance 1214). -/
def linusProfile : Profile := ⟨6, "Linus", "Torvalds", "Programmer", "contractor", 1214⟩

/-- The fetched contract of the validator test data. -/
def sampleContract : ContractRecord := ⟨1, 6, "in_progress", harryProfile, linusProfile⟩

/-- The fetched unpaid job of the validator test data (price 201). -/
def sampleJob : JobRecord := ⟨2, 201, JsVal.null, none, sampleContract⟩

/-- C1: every successful run of the pay-job operation on a job of price A
moves exactly A from the client balance to the contractor balance (their sum
is conserved), and in the same transaction sets `paid = true` with a
non-null `paymentDate`. -/
theorem payJob_money_conservation (profileType : String) (lookup : Option JobRecord)
    (now : Nat) (res : PayJobSuccess)
    (h : payJobHandler profileType lookup now = Except.ok res) :
    ∃ job, lookup = some job ∧
      res.job.price = job.price ∧
      res.job.Contract.Client.balance = job.Contract.Client.balance - job.price ∧
      res.job.Contract.Contractor.balance = job.Contract.Contractor.balance + job.price ∧
      res.job.Contract.Client.balance + res.job.Contract.Contractor.balance =
        job.Contract.Client.balance + job.Contract.Contractor.balance ∧
      res.job.paid = JsVal.bool true ∧ res.job.paid.truthy = true ∧
      res.job.paymentDate = some now ∧ res.job.paymentDate ≠ none := by
  by_cases ht : profileType = "client"
  · subst ht
    match lookup with
    | none =>
      simp [payJobHandler, validateJobClientType, validatePayJob, throwHttpError,
        Bind.bind, Except.bind] at h
    | some job =>
      refine ⟨job, rfl, ?_⟩
      by_cases hp : job.paid.truthy
      · simp [payJobHandler, validateJobClientType, validatePayJob, hp, throwHttpError,
          Bind.bind, Except.bind] at h
      · by_cases hb : job.Contract.Client.balance < job.price
        · simp [payJobHandler, validateJobClientType, validatePayJob, hp, hb, throwHttpError,
            Bind.bind, Except.bind] at h
        · simp [payJobHandler, validateJobClientType, validatePayJob, hp, hb, throwHttpError,
            Bind.bind, Except.bind] at h
          subst h
          refine ⟨rfl, rfl, rfl, by simp only [applyPayTransaction]; ring, rfl, rfl, rfl,
            by simp [applyPayTransaction]⟩
  · simp [payJobHandler, validateJobClientType, ht, throwHttpError,
      Bind.bind, Except.bind] at h

/-- Witness for C1: paying the sample job (price 201, client balance 1250,
contractor balance 1214) succeeds and the conservation properties hold. -/
theorem payJob_money_conservation_witness :
    payJobHandler "client" (some sampleJob) 99 =
      Except.ok ⟨201, applyPayTransaction sampleJob 99⟩ ∧
    ∃ job, some sampleJob = some job ∧
      (applyPayTransaction sampleJob 99).price = job.price ∧
      (applyPayTransaction sampleJob 99).Contract.Client.balance =
        job.Contract.Client.balance - job.price ∧
      (applyPayTransaction sampleJob 99).Contract.Contractor.balance =
        job.Contract.Contractor.balance + job.price ∧
      (applyPayTransaction sampleJob 99).Contract.Client.balance +
          (applyPayTransaction sampleJob 99).Contract.Contractor.balance =
        job.Contract.Client.balance + job.Contract.Contractor.balance ∧
      (applyPayTransaction sampleJob 99).paid = JsVal.bool true ∧
      (applyPayTransaction sampleJob 99).paid.truthy = true ∧
      (applyPayTransaction sampleJob 99).paymentDate = some 99 ∧
      (applyPayTransaction sampleJob 99).paymentDate ≠ none :=
  ⟨rfl, payJob_money_conservation "client" (some sampleJob) 99
    ⟨201, applyPayTransaction sampleJob 99⟩ rfl⟩

/-- C2: the payable-job validation fails as 404 when the lookup found
nothing; else as 400 "Job is already paid" when `paid` is truthy, whatever
the balance; else as 400 "Not enough balance to pay for this job" when the
price exceeds the client balance; else it passes — in that order. -/
theorem validatePayJob_spec :
    (validatePayJob none = Except.error ⟨404, "Job not found"⟩) ∧
    (∀ job : JobRecord, job.paid.truthy = true →
        validatePayJob (some job) = Except.error ⟨400, "Job is already paid"⟩) ∧
    (∀ job : JobRecord, job.paid.truthy = false →
        job.Contract.Client.balance < job.price →
        validatePayJob (some job) =
          Except.error ⟨400, "Not enough balance to pay for this job"⟩) ∧
    (∀ job : JobRecord, job.paid.truthy = false →
        job.price ≤ job.Contract.Client.balance →
        validatePayJob (some job) = Except.ok ()) := by
  refine ⟨rfl, ?_, ?_, ?_⟩
  · intro job hp; simp [validatePayJob, hp, throwHttpError]
  · intro job hp hb; simp [validatePayJob, hp, hb, throwHttpError]
  · intro job hp hb; simp [validatePayJob, hp, throwHttpError, not_lt.mpr hb]

/-- Witness for C2: the sample job already marked paid is rejected even
though the balance is ample, and the unpaid sample job passes. -/
theorem validatePayJob_spec_witness :
    (({ sampleJob with paid := JsVal.bool true } : JobRecord).paid.truthy = true ∧
      validatePayJob (some { sampleJob with paid := JsVal.bool true }) =
        Except.error ⟨400, "Job is already paid"⟩) ∧
    (sampleJob.paid.truthy = false ∧
      sampleJob.price ≤ sampleJob.Contract.Client.balance ∧
      validatePayJob (some sampleJob) = Except.ok ()) :=
  ⟨⟨rfl, validatePayJob_spec.2.1 _ rfl⟩,
   ⟨rfl, by norm_num [sampleJob, sampleContract, harryProfile],
    validatePayJob_spec.2.2.2 sampleJob rfl
      (by norm_num [sampleJob, sampleContract, harryProfile])⟩⟩

/-- C4: a caller whose profile type is not exactly "client" gets a 403
before the job lookup matters (the outcome is the same for every lookup
result), and for a "client" caller the handler proceeds: it propagates
whatever the payable-job validation decides. -/
theorem payJob_role_check :
    (∀ profileType, profileType ≠ "client" → ∀ lookup now,
        payJobHandler profileType lookup now =
          Except.error ⟨403, "Only clients can pay for a job"⟩) ∧
    (∀ lookup now,
        (∀ e, validatePayJob lookup = Except.error e →
            payJobHandler "client" lookup now = Except.error e) ∧
        (validatePayJob lookup = Except.ok () →
            ∃ job, lookup = some job ∧
              payJobHandler "client" lookup now =
                Except.ok ⟨201, applyPayTransaction job now⟩)) := by
  refine ⟨?_, ?_⟩
  · intro profileType ht lookup now
    simp [payJobHandler, validateJobClientType, ht, throwHttpError, Bind.bind, Except.bind]
  · intro lookup now
    refine ⟨?_, ?_⟩
    · intro e he
      simp [payJobHandler, validateJobClientType, he, throwHttpError, Bind.bind, Except.bind]
    · intro hok
      match lookup with
      | none => simp [validatePayJob, throwHttpError] at hok
      | some job =>
        exact ⟨job, rfl, by
          simp [payJobHandler, validateJobClientType, hok, throwHttpError,
            Bind.bind, Except.bind]⟩

/-- Witness for C4: a contractor-type caller is refused with 403 whatever
the lookup holds, and the client-type caller's request on the sample job
goes through to the transaction. -/
theorem payJob_role_check_witness :
    payJobHandler "contractor" (some sampleJob) 7 =
      Except.error ⟨403, "Only clients can pay for a job"⟩ ∧
    payJobHandler "contractor" none 7 =
      Except.error ⟨403, "Only clients can pay for a job"⟩ ∧
    ∃ job, some sampleJob = some job ∧
      payJobHandler "client" (some sampleJob) 7 =
        Except.ok ⟨201, applyPayTransaction job 7⟩ :=
  ⟨payJob_role_check.1 "contractor" (by decide) (some sampleJob) 7,
   payJob_role_check.1 "contractor" (by decide) none 7,
   (payJob_role_check.2 (some sampleJob) 7).2 (by rfl)⟩

/-- The deposit-route fetch of the validator test data: a client with two
contracts holding unpaid jobs priced 200 and 201 (total owed 401). -/
def depositTestUser : DepositUserRow := ⟨1, "client", 1150, [⟨[⟨200⟩]⟩, ⟨[⟨201⟩]⟩]⟩

/-- A client with no contracts at all (total owed 0). -/
def depositEmptyUser : DepositUserRow := ⟨2, "client", 0, []⟩

/-- C3: for a present client profile and a positive amount, the deposit
validation passes exactly when the amount is at most 25% of the total owed
T, fails as 400 when it exceeds it, and the failure message interpolates T
literally. -/
theorem depositCap_spec (u : DepositUserRow) (v : Rat)
    (hc : u.type = "client") (hv : 0 < v) :
    (v ≤ 0.25 * totalJobsToPayAmount u →
        validateDepositBalance (some u) (some v) = Except.ok ()) ∧
    (0.25 * totalJobsToPayAmount u < v →
        validateDepositBalance (some u) (some v) =
          Except.error ⟨400, depositCapMessage (totalJobsToPayAmount u)⟩) ∧
    (∃ pre post, depositCapMessage (totalJobsToPayAmount u) =
        pre ++ jsNumberToString (totalJobsToPayAmount u) ++ post) := by
  have hv' : ¬ v ≤ 0 := not_le.mpr hv
  refine ⟨?_, ?_, ?_⟩
  · intro hle
    simp [validateDepositBalance, hc, hv', not_lt.mpr hle, throwHttpError]
  · intro hgt
    simp [validateDepositBalance, hc, hv', hgt, throwHttpError]
  · exact ⟨"Client can't deposit more than 25% his total of jobs to pay (", ")", rfl⟩

/-- Witness for C3: with total owed 401 the deposit of 400 is refused with
the message naming 401, and the deposit of 100 (≤ 100.25) passes. -/
theorem depositCap_spec_witness :
    (depositTestUser.type = "client" ∧ (0 : Rat) < 400 ∧
      0.25 * totalJobsToPayAmount depositTestUser < 400 ∧
      validateDepositBalance (some depositTestUser) (some 400) =
        Except.error ⟨400, depositCapMessage (totalJobsToPayAmount depositTestUser)⟩) ∧
    ((0 : Rat) < 100 ∧ (100 : Rat) ≤ 0.25 * totalJobsToPayAmount depositTestUser ∧
      validateDepositBalance (some depositTestUser) (some 100) = Except.ok ()) ∧
    depositCapMessage (totalJobsToPayAmount depositTestUser) =
      "Client can't deposit more than 25% his total of jobs to pay (401)" := by
  have hT : totalJobsToPayAmount depositTestUser = 401 := by
    norm_num [totalJobsToPayAmount, contractJobsSum, depositTestUser]
  have h400 : 0.25 * totalJobsToPayAmount depositTestUser < 400 := by rw [hT]; norm_num
  have h100 : (100 : Rat) ≤ 0.25 * totalJobsToPayAmount depositTestUser := by
    rw [hT]; norm_num
  refine ⟨⟨rfl, by norm_num, h400,
      (depositCap_spec depositTestUser 400 rfl (by norm_num)).2.1 h400⟩,
    ⟨by norm_num, h100,
      (depositCap_spec depositTestUser 100 rfl (by norm_num)).1 h100⟩, ?_⟩
  rw [hT]; rfl

/-- C5: the deposit validation rejects an absent profile as 404, then a
non-client profile as 400, then an absent, zero or negative amount as 400 —
each with its message, in that order (the earlier checks do not look at the
later data). -/
theorem deposit_validation_errors :
    (∀ dv, validateDepositBalance none dv = Except.error ⟨404, "User not found"⟩) ∧
    (∀ u dv, u.type ≠ "client" →
        validateDepositBalance (some u) dv = Except.error ⟨400, "User is not a client"⟩) ∧
    (∀ u : DepositUserRow, u.type = "client" →
        validateDepositBalance (some u) none =
          Except.error ⟨400, "Deposit value is invalid (should be > 0)"⟩) ∧
    (∀ (u : DepositUserRow) (v : Rat), u.type = "client" → v ≤ 0 →
        validateDepositBalance (some u) (some v) =
          Except.error ⟨400, "Deposit value is invalid (should be > 0)"⟩) := by
  refine ⟨fun dv => rfl, ?_, ?_, ?_⟩
  · intro u dv ht
    simp [validateDepositBalance, ht, throwHttpError]
  · intro u hc
    simp [validateDepositBalance, hc, throwHttpError]
  · intro u v hc hv
    simp [validateDepositBalance, hc, hv, throwHttpError]

/-- Witness for C5: the absent profile, the contractor-typed profile (with
a valid amount), the missing amount and the negative amount of the repo
test are each refused with the stated message. -/
theorem deposit_validation_errors_witness :
    validateDepositBalance none (some 100) = Except.error ⟨404, "User not found"⟩ ∧
    validateDepositBalance (some { depositTestUser with type := "contractor" }) (some 100) =
      Except.error ⟨400, "User is not a client"⟩ ∧
    validateDepositBalance (some depositTestUser) none =
      Except.error ⟨400, "Deposit value is invalid (should be > 0)"⟩ ∧
    validateDepositBalance (some depositTestUser) (some (-200)) =
      Except.error ⟨400, "Deposit value is invalid (should be > 0)"⟩ :=
  ⟨deposit_validation_errors.1 (some 100),
   deposit_validation_errors.2.1 { depositTestUser with type := "contractor" }
     (some 100) (by decide),
   deposit_validation_errors.2.2.1 depositTestUser rfl,
   deposit_validation_errors.2.2.2 depositTestUser (-200) rfl (by norm_num)⟩

/-- C10: a client with no unpaid jobs (total owed 0) can never deposit: any
positive amount exceeds 25% of 0, so the cap check always fails. -/
theorem deposit_zero_owed_blocked (u : DepositUserRow) (v : Rat)
    (hc : u.type = "client") (h0 : totalJobsToPayAmount u = 0) (hv : 0 < v) :
    validateDepositBalance (some u) (some v) =
      Except.error ⟨400, depositCapMessage 0⟩ := by
  have hv' : ¬ v ≤ 0 := not_le.mpr hv
  have hgt : 0.25 * totalJobsToPayAmount u < v := by rw [h0]; simpa using hv
  simp [validateDepositBalance, hc, hv', hgt, h0, throwHttpError]

/-- Witness for C10: the client with no contracts cannot deposit 5. -/
theorem deposit_zero_owed_blocked_witness :
    depositEmptyUser.type = "client" ∧ totalJobsToPayAmount depositEmptyUser = 0 ∧
    (0 : Rat) < 5 ∧
    validateDepositBalance (some depositEmptyUser) (some 5) =
      Except.error ⟨400, depositCapMessage 0⟩ :=
  ⟨rfl, rfl, by norm_num,
   deposit_zero_owed_blocked depositEmptyUser 5 rfl rfl (by norm_num)⟩

/-- C6: date-range validation accepts exactly the strict `YYYY-MM-DD`
calendar dates (no normalization: day 31 of a 30-day month is rejected),
and a failure reports the first offending literal value in a 400 error. -/
theorem validateDates_spec :
    (∀ dates : List String, validateDates dates = Except.ok () ↔
        ∀ d ∈ dates, isStrictDate d = true) ∧
    (∀ (valid : List String) (d : String) (rest : List String),
        (∀ x ∈ valid, isStrictDate x = true) → isStrictDate d = false →
        validateDates (valid ++ d :: rest) =
          Except.error ⟨400, "Invalid date: " ++ d⟩) ∧
    (isStrictDate "2020-12-31" = true ∧ isStrictDate "2020-02-29" = true ∧
     isStrictDate "2020-02-31" = false ∧ isStrictDate "2019-02-29" = false ∧
     isStrictDate "123456" = false) := by
  refine ⟨?_, ?_, by decide⟩
  · intro dates
    induction dates with
    | nil => simp [validateDates]
    | cons d rest ih =>
      by_cases hd : isStrictDate d
      · simp [validateDates, hd, ih]
      · simp [validateDates, hd, throwHttpError]
  · intro valid d rest hvalid hd
    induction valid with
    | nil => simp [validateDates, hd, throwHttpError]
    | cons v vs ih =>
      have hv : isStrictDate v = true := hvalid v (List.mem_cons_self v vs)
      simpa [validateDates, hv] using
        ih (fun x hx => hvalid x (List.mem_cons_of_mem v hx))

/-- Witness for C6: in the list `["2010-01-01", "2020-02-31"]` the second
entry is the first offending value and is named in the error. -/
theorem validateDates_spec_witness :
    isStrictDate "2010-01-01" = true ∧ isStrictDate "2020-02-31" = false ∧
    validateDates ["2010-01-01", "2020-02-31"] =
      Except.error ⟨400, "Invalid date: 2020-02-31"⟩ :=
  ⟨by decide, by decide,
   validateDates_spec.2.1 ["2010-01-01"] "2020-02-31" [] (by decide) (by decide)⟩

/-- Reading any key of a profession map whose values are all zero gives
zero (an absent key defaults to zero as well). -/
theorem professionMapGet_eq_zero {m : List (String × Rat)}
    (hz : ∀ kv ∈ m, kv.2 = 0) (k : String) : professionMapGet m k = 0 := by
  unfold professionMapGet
  cases hf : m.find? (fun kv => kv.1 == k) with
  | none => rfl
  | some kv => simp [hz kv (List.mem_of_find?_eq_some hf)]

/-- Counterexample to C7: with a valid date range and an empty fetched
contractor list (zero contractors, so every per-profession sum is
vacuously 0) the handler does not answer with the fallback string: the
`reduce` over the empty key list throws, surfaced as a 500 error. -/
theorem bestProfession_empty_counterexample :
    bestProfessionHandler "2020-01-01" "2020-12-31" [] =
        Except.error ⟨500, "Reduce of empty array with no initial value"⟩ ∧
      bestProfessionHandler "2020-01-01" "2020-12-31" [] ≠
        Except.ok "No professions were paid in this time range" :=
  have he : bestProfessionHandler "2020-01-01" "2020-12-31" [] =
      Except.error ⟨500, "Reduce of empty array with no initial value"⟩ := rfl
  ⟨he, fun h => Except.noConfusion (he.symm.trans h)⟩

/-- C7 (amended): over a valid date range, when the fetched contractor list
yields a non-empty profession map whose sums are all 0, the handler returns
the literal fallback string; the empty-fetch case instead throws. -/
theorem bestProfession_zero_sums (startDate endDate : String)
    (users : List ContractorUserRow)
    (hdates : validateDates [startDate, endDate] = Except.ok ())
    (hne : professionMap users ≠ [])
    (hz : ∀ kv ∈ professionMap users, kv.2 = 0) :
    bestProfessionHandler startDate endDate users =
      Except.ok "No professions were paid in this time range" := by
  cases hm : professionMap users with
  | nil => exact absurd hm hne
  | cons kv rest =>
    have hz' : ∀ x ∈ kv :: rest, (x : String × Rat).2 = 0 := hm ▸ hz
    have hget := professionMapGet_eq_zero hz'
    simp [bestProfessionHandler, hdates, Bind.bind, Except.bind, hm, bestProfessionOf, hget]

/-- Witness for C7's amended statement: one contractor whose only fetched
job has price 0 gives the map `[("Programmer", 0)]` and the fallback
string. -/
theorem bestProfession_zero_sums_witness :
    validateDates ["2020-01-01", "2020-12-31"] = Except.ok () ∧
    professionMap [⟨"Programmer", [⟨[⟨0⟩]⟩]⟩] ≠ [] ∧
    bestProfessionHandler "2020-01-01" "2020-12-31" [⟨"Programmer", [⟨[⟨0⟩]⟩]⟩] =
      Except.ok "No professions were paid in this time range" :=
  ⟨rfl,
   by norm_num [professionMap, addToProfessionMap, contractorTotal, fetchedContractSum],
   bestProfession_zero_sums "2020-01-01" "2020-12-31" _ rfl
     (by norm_num [professionMap, addToProfessionMap, contractorTotal, fetchedContractSum])
     (by norm_num [professionMap, addToProfessionMap, contractorTotal, fetchedContractSum])⟩

/-- `clientSortLe` is transitive. -/
theorem clientSortLe_trans (a b c : ClientEntry)
    (hab : clientSortLe a b) (hbc : clientSortLe b c) : clientSortLe a c := by
  simp only [clientSortLe, decide_eq_true_eq] at *
  exact le_trans hbc hab

/-- `clientSortLe` is total. -/
theorem clientSortLe_total (a b : ClientEntry) : clientSortLe a b || clientSortLe b a := by
  simp only [clientSortLe, Bool.or_eq_true, decide_eq_true_eq]
  exact le_total b.paid a.paid

/-- C8: for a valid date range, the best-clients handler ranks the fetched
clients by descending computed paid sum and returns the first `limit`
entries (2 when the query names no limit), every entry exposing the
client's id, the display name `firstName ++ " " ++ lastName`, and the paid
sum. -/
theorem bestClients_spec (startDate endDate : String) (users : List ClientUserRow)
    (limit : Option Nat)
    (hdates : validateDates [startDate, endDate] = Except.ok ()) :
    ∃ ranked : List ClientEntry,
      ranked.Perm (users.map clientEntry) ∧
      ranked.Pairwise (fun a b => b.paid ≤ a.paid) ∧
      (∀ entry ∈ ranked, ∃ user ∈ users, entry = clientEntry user ∧
          entry.id = user.id ∧
          entry.fullName = user.firstName ++ " " ++ user.lastName) ∧
      bestClientsHandler startDate endDate users limit =
        Except.ok (ranked.take (limit.getD 2)) ∧
      bestClientsHandler startDate endDate users none = Except.ok (ranked.take 2) := by
  refine ⟨(users.map clientEntry).mergeSort clientSortLe,
    List.mergeSort_perm _ _, ?_, ?_, ?_, ?_⟩
  · exact (List.sorted_mergeSort clientSortLe_trans clientSortLe_total
      (users.map clientEntry)).imp (fun h => by
        simpa only [clientSortLe, decide_eq_true_eq] using h)
  · intro entry he
    rw [List.mem_mergeSort] at he
    obtain ⟨user, hu, rfl⟩ := List.mem_map.mp he
    exact ⟨user, hu, rfl, rfl, rfl⟩
  · simp [bestClientsHandler, hdates, Bind.bind, Except.bind]
  · simp [bestClientsHandler, hdates, Bind.bind, Except.bind]

/-- Witness for C8: three fetched clients with paid sums 500, 300 and 0,
queried with limit 1 (and, in the last conjunct, with the limit absent). -/
theorem bestClients_spec_witness :
    validateDates ["2020-01-01", "2020-12-31"] = Except.ok () ∧
    ∃ ranked : List ClientEntry,
      ranked.Perm ([(⟨1, "Harry", "Potter", [⟨[⟨500⟩]⟩]⟩ : ClientUserRow),
        ⟨2, "Mr", "Robot", [⟨[⟨300⟩]⟩]⟩, ⟨3, "John", "Snow", []⟩].map clientEntry) ∧
      ranked.Pairwise (fun a b => b.paid ≤ a.paid) ∧
      (∀ entry ∈ ranked, ∃ user ∈ [(⟨1, "Harry", "Potter", [⟨[⟨500⟩]⟩]⟩ : ClientUserRow),
          ⟨2, "Mr", "Robot", [⟨[⟨300⟩]⟩]⟩, ⟨3, "John", "Snow", []⟩],
          entry = clientEntry user ∧ entry.id = user.id ∧
          entry.fullName = user.firstName ++ " " ++ user.lastName) ∧
      bestClientsHandler "2020-01-01" "2020-12-31"
          [⟨1, "Harry", "Potter", [⟨[⟨500⟩]⟩]⟩, ⟨2, "Mr", "Robot", [⟨[⟨300⟩]⟩]⟩,
            ⟨3, "John", "Snow", []⟩] (some 1) = Except.ok (ranked.take 1) ∧
      bestClientsHandler "2020-01-01" "2020-12-31"
          [⟨1, "Harry", "Potter", [⟨[⟨500⟩]⟩]⟩, ⟨2, "Mr", "Robot", [⟨[⟨300⟩]⟩]⟩,
            ⟨3, "John", "Snow", []⟩] none = Except.ok (ranked.take 2) :=
  ⟨rfl, bestClients_spec "2020-01-01" "2020-12-31"
    [⟨1, "Harry", "Potter", [⟨[⟨500⟩]⟩]⟩, ⟨2, "Mr", "Robot", [⟨[⟨300⟩]⟩]⟩,
      ⟨3, "John", "Snow", []⟩] (some 1) rfl⟩

/-- C9: the already-paid check is a JS truthiness test, so any falsy `paid`
value (`null`, but also `false`, `0`, `""`) counts as unpaid and the
validation moves on to the balance check. -/
theorem payJob_truthy_falsy :
    (JsVal.truthy (JsVal.bool false) = false ∧ JsVal.truthy (JsVal.num 0) = false ∧
     JsVal.truthy (JsVal.str "") = false ∧ JsVal.truthy JsVal.null = false) ∧
    (∀ job : JobRecord, job.paid.truthy = false →
        validatePayJob (some job) =
          if job.Contract.Client.balance < job.price then
            Except.error ⟨400, "Not enough balance to pay for this job"⟩
          else Except.ok ()) := by
  refine ⟨by decide, ?_⟩
  intro job hp
  simp [validatePayJob, hp, throwHttpError]

/-- Witness for C9: a job whose `paid` is the boolean `false` (as the repo
test sets it) with price 3000 passes the already-paid check and fails only
on the balance. -/
theorem payJob_truthy_falsy_witness :
    ({ sampleJob with paid := JsVal.bool false, price := 3000 } : JobRecord).paid.truthy
        = false ∧
    validatePayJob (some { sampleJob with paid := JsVal.bool false, price := 3000 }) =
      if ({ sampleJob with paid := JsVal.bool false, price := 3000 } :
            JobRecord).Contract.Client.balance <
          ({ sampleJob with paid := JsVal.bool false, price := 3000 } : JobRecord).price then
        Except.error ⟨400, "Not enough balance to pay for this job"⟩
      else Except.ok () :=
  ⟨rfl, payJob_truthy_falsy.2 _ rfl⟩
